import Mathlib

/-!
Shallow embedding of the geospatial risk-scoring and risk-aware routing
pipeline (H3 grid risk aggregation, risk blending, routing engine), with
theorems settling the specification claims.

Risk values that are Python floats are modelled as rationals.
Python's built-in `round(x, n)` (also the rounding used by `pandas.round` /
`numpy.round`) rounds half to even; we model it exactly with `rhe` below.
-/

namespace RiskPipeline

/-- Round a rational to the nearest integer, ties to even
(the semantics of Python's built-in `round`). -/
def rhe (q : ℚ) : ℤ :=
  if q - ⌊q⌋ < 1/2 then ⌊q⌋
  else if 1/2 < q - ⌊q⌋ then ⌊q⌋ + 1
  else if 2 ∣ ⌊q⌋ then ⌊q⌋ else ⌊q⌋ + 1

/-- Python `round(q, 2)`. -/
def round2 (q : ℚ) : ℚ := (rhe (q * 100) : ℚ) / 100

/-- Python `round(q, 3)`. -/
def round3 (q : ℚ) : ℚ := (rhe (q * 1000) : ℚ) / 1000

/-- Python `round(q, 1)`. -/
def round1 (q : ℚ) : ℚ := (rhe (q * 10) : ℚ) / 10

theorem rhe_cases (q : ℚ) :
    (rhe q = ⌊q⌋ ∧ q - ⌊q⌋ ≤ 1/2) ∨ (rhe q = ⌊q⌋ + 1 ∧ 1/2 ≤ q - ⌊q⌋) := by
  unfold rhe
  split
  · exact Or.inl ⟨rfl, by linarith⟩
  · rename_i h1
    push_neg at h1
    split
    · exact Or.inr ⟨rfl, h1⟩
    · rename_i h2
      push_neg at h2
      split
      · exact Or.inl ⟨rfl, h2⟩
      · exact Or.inr ⟨rfl, h1⟩

theorem rhe_intCast (n : ℤ) : rhe (n : ℚ) = n := by
  simp [rhe]

theorem rhe_ge (q : ℚ) : q - 1/2 ≤ (rhe q : ℚ) := by
  rcases rhe_cases q with ⟨h, hf⟩ | ⟨h, hf⟩
  · rw [h]; linarith
  · rw [h]; push_cast; linarith [Int.lt_floor_add_one q]

theorem rhe_le (q : ℚ) : (rhe q : ℚ) ≤ q + 1/2 := by
  rcases rhe_cases q with ⟨h, hf⟩ | ⟨h, hf⟩
  · rw [h]; linarith [Int.floor_le q]
  · rw [h]; push_cast; linarith

theorem int_le_rhe {n : ℤ} {q : ℚ} (h : (n : ℚ) ≤ q) : n ≤ rhe q := by
  rcases rhe_cases q with ⟨hc, _⟩ | ⟨hc, _⟩
  · rw [hc]; exact Int.le_floor.mpr h
  · rw [hc]; exact le_trans (Int.le_floor.mpr h) (Int.le_add_one (le_refl _))

theorem rhe_le_int {n : ℤ} {q : ℚ} (h : q ≤ (n : ℚ)) : rhe q ≤ n := by
  rcases rhe_cases q with ⟨hc, _⟩ | ⟨hc, hf⟩
  · rw [hc]
    calc ⌊q⌋ ≤ ⌊(n : ℚ)⌋ := Int.floor_le_floor h
    _ = n := Int.floor_intCast n
  · rw [hc]
    have hlt : (⌊q⌋ : ℚ) < n := by linarith [Int.floor_le q]
    have : ⌊q⌋ < n := by exact_mod_cast hlt
    omega

theorem round2_fixed (n : ℤ) : round2 ((n : ℚ) / 100) = (n : ℚ) / 100 := by
  unfold round2
  have h : (n : ℚ) / 100 * 100 = (n : ℚ) := by field_simp
  rw [h, rhe_intCast]

theorem round2_le_of_le {q : ℚ} {n : ℤ} (h : q ≤ (n : ℚ) / 100) :
    round2 q ≤ (n : ℚ) / 100 := by
  unfold round2
  have h1 : q * 100 ≤ (n : ℚ) := by linarith
  have := rhe_le_int h1
  have : ((rhe (q * 100) : ℤ) : ℚ) ≤ (n : ℚ) := by exact_mod_cast this
  linarith

theorem le_round2_of_le {q : ℚ} {n : ℤ} (h : (n : ℚ) / 100 ≤ q) :
    (n : ℚ) / 100 ≤ round2 q := by
  unfold round2
  have h1 : (n : ℚ) ≤ q * 100 := by linarith
  have := int_le_rhe h1
  have : (n : ℚ) ≤ ((rhe (q * 100) : ℤ) : ℚ) := by exact_mod_cast this
  linarith

end RiskPipeline

namespace RiskPipeline

/-! ## Risk blending and time keys (risk_aware_routing/routing_engine.py) -/

/-- One cell record of the `routing_risk_api.json` exchange file
(`export.py`, `export_routing_api_format`); the routing engine reads
`base_risk`, `crime_risk` and the two modifier maps from it. -/
structure CellInfo where
  base_risk : ℚ
  smoothed_risk : ℚ
  pedestrian_risk : ℚ
  cyclist_risk : ℚ
  crime_risk : ℚ
  smoothed_crime_risk : ℚ
  crash_count : ℤ
  crime_count : ℤ
  total_severity : ℚ
  time_modifiers : List (String × ℚ)
  crime_time_modifiers : List (String × ℚ)
deriving DecidableEq

/-- `RoutingEngine.MODE_WEIGHTS`: (crash weight, crime weight) per travel mode. -/
def MODE_WEIGHTS : List (String × (ℚ × ℚ)) :=
  [("walking", (3/10, 7/10)), ("driving", (9/10, 1/10)), ("cycling", (1/2, 1/2))]

/-- `MODE_WEIGHTS.get(travel_mode, MODE_WEIGHTS["walking"])`. -/
def modeWeights (travel_mode : String) : ℚ × ℚ :=
  (MODE_WEIGHTS.lookup travel_mode).getD ((MODE_WEIGHTS.lookup "walking").getD (0, 0))

/-- `RoutingEngine._get_blended_risk` (the `has_crime_data` flag is engine
state in the source; here it is passed explicitly). -/
def get_blended_risk (has_crime_data : Bool) (cell_info : CellInfo)
    (time_key : String) (travel_mode : String) : ℚ :=
  let weights := modeWeights travel_mode
  let crash_base := cell_info.base_risk
  let crash_mod := (cell_info.time_modifiers.lookup time_key).getD 1
  let crash_risk := crash_base * crash_mod
  let crime_base := cell_info.crime_risk
  let crime_mod := (cell_info.crime_time_modifiers.lookup time_key).getD 1
  let crime_risk := crime_base * crime_mod
  if crime_base = 0 ∧ has_crime_data = false then crash_risk
  else weights.1 * crash_risk + weights.2 * crime_risk

/-- `RoutingEngine._get_time_key`. -/
def get_time_key (hour : ℤ) (is_weekend : Bool) : String :=
  let day_type := if is_weekend then "weekend" else "weekday"
  let period :=
    if 0 ≤ hour ∧ hour < 6 then "night"
    else if 6 ≤ hour ∧ hour < 9 then "morning_rush"
    else if 9 ≤ hour ∧ hour < 16 then "midday"
    else if 16 ≤ hour ∧ hour < 19 then "evening_rush"
    else if 19 ≤ hour ∧ hour < 22 then "evening"
    else "night"
  period ++ "_" ++ day_type

/-- `TimePatternAnalyzer.TIME_PERIODS` (time_patterns.py). -/
def TIME_PERIODS : List (String × (ℤ × ℤ)) :=
  [("night", (0, 6)), ("morning_rush", (6, 9)), ("midday", (9, 16)),
   ("evening_rush", (16, 19)), ("evening", (19, 24))]

/-- The `get_period` helper of `TimePatternAnalyzer.calculate_period_risk` /
`calculate_cell_time_risk`: first matching period in dict order, else night. -/
def get_period (hour : ℤ) : String :=
  match TIME_PERIODS.find? (fun p => decide (p.2.1 ≤ hour ∧ hour < p.2.2)) with
  | some p => p.1
  | none => "night"

/-- The identical local `TIME_PERIODS` table of
`CrimeRiskCalculator.calculate_crime_time_patterns` (crime_risk.py). -/
def CRIME_TIME_PERIODS : List (String × (ℤ × ℤ)) :=
  [("night", (0, 6)), ("morning_rush", (6, 9)), ("midday", (9, 16)),
   ("evening_rush", (16, 19)), ("evening", (19, 24))]

/-- The `get_period` helper of `calculate_crime_time_patterns`. -/
def crime_get_period (hour : ℤ) : String :=
  match CRIME_TIME_PERIODS.find? (fun p => decide (p.2.1 ≤ hour ∧ hour < p.2.2)) with
  | some p => p.1
  | none => "night"

/-- `lambda d: "weekend" if d in [5, 6] else "weekday"`. -/
def day_type_of (day_of_week : ℤ) : String :=
  if day_of_week = 5 ∨ day_of_week = 6 then "weekend" else "weekday"

/-! ## The routing engine (risk_aware_routing/routing_engine.py)

The street graph, the coordinate snapper (`ox.nearest_nodes`), the H3 cell
indexer (`h3.latlng_to_cell` at resolution 9) and the weighted search
(`nx.shortest_path`) are external collaborators; they appear as components
of the engine state. Everything the repository itself computes (cost
function, bounds check, stats, comparison, loading) is defined below. -/

structure EdgeData where
  travel_time : Option ℚ
deriving DecidableEq

structure Bounds where
  min_lat : ℚ
  max_lat : ℚ
  min_lng : ℚ
  max_lng : ℚ
deriving DecidableEq

structure RoutingEngine where
  edges : ℕ → ℕ → Option EdgeData
  node_coord : ℕ → ℚ × ℚ
  nearest_nodes : ℚ × ℚ → ℕ
  latlng_to_cell : ℚ × ℚ → String
  risk_data : List (String × CellInfo)
  has_crime_data : Bool
  bounds : Bounds
  shortest_path : (ℕ → ℕ → EdgeData → ℚ) → ℕ → ℕ → Option (List ℕ)

/-- `RoutingEngine.is_in_bounds`. -/
def is_in_bounds (E : RoutingEngine) (lat lng : ℚ) : Prop :=
  E.bounds.min_lat ≤ lat ∧ lat ≤ E.bounds.max_lat ∧
  E.bounds.min_lng ≤ lng ∧ lng ≤ E.bounds.max_lng

instance (E : RoutingEngine) (lat lng : ℚ) : Decidable (is_in_bounds E lat lng) := by
  unfold is_in_bounds; infer_instance

/-- The `risk_cost_func` closure built inside `RoutingEngine.get_route`. -/
def risk_cost_func (E : RoutingEngine) (beta : ℚ) (time_key travel_mode : String)
    (u : ℕ) (_v : ℕ) (data : EdgeData) : ℚ :=
  let travel_time := data.travel_time.getD 1
  let cell := E.latlng_to_cell (E.node_coord u)
  let risk_val : ℚ :=
    match E.risk_data.lookup cell with
    | some ci => get_blended_risk E.has_crime_data ci time_key travel_mode
    | none => 2
  travel_time + beta * risk_val

/-- `RoutingEngine.get_route`; `none` models the `NetworkXNoPath` exception
propagating out of `nx.shortest_path`. -/
def get_route (E : RoutingEngine) (start_coords end_coords : ℚ × ℚ) (beta : ℚ)
    (hour : ℤ) (is_weekend : Bool) (travel_mode : String) :
    Option (List (ℚ × ℚ)) :=
  let orig_node := E.nearest_nodes start_coords
  let dest_node := E.nearest_nodes end_coords
  let time_key := get_time_key hour is_weekend
  (E.shortest_path (fun u v d => risk_cost_func E beta time_key travel_mode u v d)
      orig_node dest_node).map (fun p => p.map E.node_coord)

structure RouteStats where
  total_time : ℚ
  total_risk : ℚ
deriving DecidableEq

/-- The loop body of `RoutingEngine._calculate_route_stats`. -/
def route_stats_aux (E : RoutingEngine) (time_key travel_mode : String) :
    List (ℚ × ℚ) → RouteStats
  | c1 :: c2 :: rest =>
    let s := route_stats_aux E time_key travel_mode (c2 :: rest)
    let u := E.nearest_nodes c1
    let v := E.nearest_nodes c2
    match E.edges u v with
    | some d =>
      let t := d.travel_time.getD 0
      let cell := E.latlng_to_cell c1
      match E.risk_data.lookup cell with
      | some ci =>
        ⟨s.total_time + t,
         s.total_risk + get_blended_risk E.has_crime_data ci time_key travel_mode⟩
      | none => ⟨s.total_time + t, s.total_risk⟩
    | none => s
  | _ => ⟨0, 0⟩

/-- `RoutingEngine._calculate_route_stats`. -/
def calculate_route_stats (E : RoutingEngine) (coords : List (ℚ × ℚ))
    (hour : ℤ) (is_weekend : Bool) (travel_mode : String) : RouteStats :=
  route_stats_aux E (get_time_key hour is_weekend) travel_mode coords

structure Comparison where
  fastest_route : List (ℚ × ℚ)
  safest_route : List (ℚ × ℚ)
  fastest_stats : RouteStats
  safest_stats : RouteStats
  reduction_in_risk_pct : ℚ
  extra_time_seconds : ℚ

/-- `RoutingEngine.get_comparison`; `Except.error` models the raised
`ValueError` (out-of-bounds endpoints) and the propagated no-path error. -/
def get_comparison (E : RoutingEngine) (start_coords end_coords : ℚ × ℚ)
    (beta : ℚ) (hour : ℤ) (is_weekend : Bool) (travel_mode : String) :
    Except String Comparison :=
  if ¬ is_in_bounds E start_coords.1 start_coords.2 then
    .error "Start point outside Manhattan coverage area"
  else if ¬ is_in_bounds E end_coords.1 end_coords.2 then
    .error "End point outside Manhattan coverage area"
  else
    match get_route E start_coords end_coords 0 hour is_weekend travel_mode,
          get_route E start_coords end_coords beta hour is_weekend travel_mode with
    | some fastest, some safest =>
      let fs := calculate_route_stats E fastest hour is_weekend travel_mode
      let ss := calculate_route_stats E safest hour is_weekend travel_mode
      .ok { fastest_route := fastest, safest_route := safest,
            fastest_stats := fs, safest_stats := ss,
            reduction_in_risk_pct :=
              round1 ((1 - ss.total_risk / max fs.total_risk 1) * 100),
            extra_time_seconds := (rhe (ss.total_time - fs.total_time) : ℚ) }
    | _, _ => .error "NetworkXNoPath"

structure ApiMetadata where
  has_crime_data : Option Bool
  total_cells : Option ℤ
deriving DecidableEq

structure RiskApiFile where
  metadata : Option ApiMetadata
  cells : Option (List (String × CellInfo))
deriving DecidableEq

/-- `RoutingEngine.load_risk_api`: reads `cells` (default empty) and
`metadata.has_crime_data` (default `False`). -/
def load_risk_api (E : RoutingEngine) (file : RiskApiFile) : RoutingEngine :=
  { E with
    risk_data := file.cells.getD [],
    has_crime_data := (file.metadata.bind (fun m => m.has_crime_data)).getD false }

/-- Replace only the stored bounding box of an engine. -/
def set_bounds (E : RoutingEngine) (b : Bounds) : RoutingEngine :=
  { E with bounds := b }

/-- Total cost of a node path under the weight callable handed to
`nx.shortest_path` (the off-path `none` default is never reached on a
valid path). -/
def path_cost (E : RoutingEngine) (beta : ℚ) (time_key travel_mode : String) :
    List ℕ → ℚ
  | u :: v :: rest =>
    (match E.edges u v with
     | some d => risk_cost_func E beta time_key travel_mode u v d
     | none => 0) + path_cost E beta time_key travel_mode (v :: rest)
  | _ => 0

/-- A node sequence that starts at `s`, ends at `t`, and follows existing
directed edges of the loaded street graph. -/
def ValidPath (E : RoutingEngine) (s t : ℕ) (p : List ℕ) : Prop :=
  p.head? = some s ∧ p.getLast? = some t ∧
  List.Chain' (fun u v => (E.edges u v).isSome) p

end RiskPipeline

namespace RiskPipeline

/-! ## Incident aggregation and normalization
(grid_risk.py `calculate_cell_risk`, crime_risk.py `calculate_cell_crime_risk`)

Only the normalized 0-100 score column is modelled (the pedestrian/cyclist
sub-score columns are untouched by the claims). A source row carries the
cell assigned by the indexer, the severity from ingestion, and the incident
age in days used by the time-decay step. -/

structure IncidentRow where
  h3_cell : String
  severity : ℚ
  days_ago : ℤ
deriving DecidableEq

/-- Time decay: `2.0` if age < 180 days, `1.5` if < 365 days, else `1.0`. -/
def time_weight (days_ago : ℤ) : ℚ :=
  if days_ago < 180 then 2 else if days_ago < 365 then 3/2 else 1

/-- `df["weighted_severity"] = df["severity"] * df["time_weight"]`. -/
def row_weighted_severity (r : IncidentRow) : ℚ := r.severity * time_weight r.days_ago

/-- The groupby keys: distinct cells of the input. -/
def agg_cells (rows : List IncidentRow) : List String := (rows.map (·.h3_cell)).dedup

/-- Per-cell `weighted_severity` sum of the groupby. -/
def weighted_severity (rows : List IncidentRow) (c : String) : ℚ :=
  ((rows.filter (fun r => r.h3_cell == c)).map row_weighted_severity).sum

/-- `cell_stats["weighted_severity"].max()` (the fold base 0 agrees with the
pandas column maximum on the nonnegative-severity data the pipeline feeds it,
and on empty input where the `max > 0` guard fails either way). -/
def max_weighted (rows : List IncidentRow) : ℚ :=
  ((agg_cells rows).map (weighted_severity rows)).foldr max 0

/-- The `risk_score` column of `GridRiskCalculator.calculate_cell_risk`:
`(weighted_severity / max_weighted * 100).round(2)` when the maximum is
positive, else 0. -/
def risk_score (rows : List IncidentRow) (c : String) : ℚ :=
  if max_weighted rows > 0 then
    round2 (weighted_severity rows c / max_weighted rows * 100)
  else 0

/-- The `crime_risk` column of `CrimeRiskCalculator.calculate_cell_crime_risk`
(same normalization as the collision aggregator, over crime rows). -/
def crime_risk_score (rows : List IncidentRow) (c : String) : ℚ :=
  if max_weighted rows > 0 then
    round2 (weighted_severity rows c / max_weighted rows * 100)
  else 0

/-! ## Spatial smoothing
(grid_risk.py `apply_spatial_smoothing`, crime_risk.py `get_smoothed`)

`ring` stands for the external `h3.grid_ring(cell, 1)` enumeration. The
grid rows hold the pre-smoothing scores; smoothing reads only those. -/

structure GridCell where
  h3_cell : String
  risk_score : ℚ
deriving DecidableEq

/-- `self.grid_data["risk_score"].mean()`. -/
def city_avg (grid : List GridCell) : ℚ :=
  ((grid.map (·.risk_score)).sum) / (grid.length : ℚ)

/-- The rows of `grid_data` whose cell is in the 1-ring of `cell`. -/
def neighbor_rows (grid : List GridCell) (ring : String → List String)
    (cell : String) : List GridCell :=
  grid.filter (fun r => (ring cell).contains r.h3_cell)

/-- `get_smoothed_risk(row)` inside `apply_spatial_smoothing` (grid_risk.py),
with `fallback_pct` defaulting to 0.3 as in the source. -/
def get_smoothed_risk (grid : List GridCell) (ring : String → List String)
    (fallback_pct : ℚ) (row : GridCell) : ℚ :=
  let nd := neighbor_rows grid ring row.h3_cell
  if nd.length > 0 then
    let neighbor_avg := ((nd.map (·.risk_score)).sum) / (nd.length : ℚ)
    round2 (row.risk_score * (7/10) + neighbor_avg * (3/10))
  else
    round2 (row.risk_score * (7/10) + city_avg grid * fallback_pct)

/-- `apply_spatial_smoothing`: each row paired with its `smoothed_risk`
(`fallback_pct` defaults to 0.3 at the call sites, as in the source). -/
def apply_spatial_smoothing (grid : List GridCell) (ring : String → List String)
    (fallback_pct : ℚ) : List (GridCell × ℚ) :=
  grid.map (fun r => (r, get_smoothed_risk grid ring fallback_pct r))

/-- `get_smoothed(row)` inside `calculate_cell_crime_risk` (crime_risk.py);
identical blend, city-average fallback fixed at 0.3. -/
def crime_get_smoothed (grid : List GridCell) (ring : String → List String)
    (row : GridCell) : ℚ :=
  let nd := neighbor_rows grid ring row.h3_cell
  if nd.length > 0 then
    let neighbor_avg := ((nd.map (·.risk_score)).sum) / (nd.length : ℚ)
    round2 (row.risk_score * (7/10) + neighbor_avg * (3/10))
  else
    round2 (row.risk_score * (7/10) + city_avg grid * (3/10))

/-! ## Risk blender (crime_risk.py `blend_risks`)

Pandas `merge(..., how="outer").fillna(0)` on tables whose keys are unique
(both sides are groupby outputs): left rows joined with their match or
zeros, then the unmatched right rows with zeros on the left side. -/

structure CrashGridRow where
  h3_cell : String
  risk_score : ℚ
  smoothed_risk : ℚ
  pedestrian_risk : ℚ
  cyclist_risk : ℚ
  crash_count : ℤ
  total_severity : ℚ
deriving DecidableEq

structure CrimeGridRow where
  h3_cell : String
  crime_risk : ℚ
  smoothed_crime_risk : ℚ
  crime_count : ℤ
deriving DecidableEq

structure CombinedGridRow where
  h3_cell : String
  risk_score : ℚ
  smoothed_risk : ℚ
  pedestrian_risk : ℚ
  cyclist_risk : ℚ
  crash_count : ℤ
  crash_severity : ℚ
  crime_risk : ℚ
  smoothed_crime_risk : ℚ
  crime_count : ℤ
deriving DecidableEq

/-- A crash row joined with its matching crime row (or zeros) in the
grid-level outer merge of `blend_risks`. -/
def blend_grid_left (crime : List CrimeGridRow) (cr : CrashGridRow) :
    CombinedGridRow :=
  match crime.find? (fun sr => sr.h3_cell == cr.h3_cell) with
  | some sr =>
    ⟨cr.h3_cell, cr.risk_score, cr.smoothed_risk, cr.pedestrian_risk,
     cr.cyclist_risk, cr.crash_count, cr.total_severity,
     sr.crime_risk, sr.smoothed_crime_risk, sr.crime_count⟩
  | none =>
    ⟨cr.h3_cell, cr.risk_score, cr.smoothed_risk, cr.pedestrian_risk,
     cr.cyclist_risk, cr.crash_count, cr.total_severity, 0, 0, 0⟩

/-- An unmatched crime row with zeros on the crash side. -/
def blend_grid_right (sr : CrimeGridRow) : CombinedGridRow :=
  ⟨sr.h3_cell, 0, 0, 0, 0, 0, 0,
   sr.crime_risk, sr.smoothed_crime_risk, sr.crime_count⟩

/-- Grid-level outer merge of `blend_risks` (`total_severity` is renamed to
`crash_severity` before the merge, absent sides fill with 0). -/
def blend_grid (crash : List CrashGridRow) (crime : List CrimeGridRow) :
    List CombinedGridRow :=
  crash.map (blend_grid_left crime)
  ++ ((crime.filter (fun sr => ! (crash.map (·.h3_cell)).contains sr.h3_cell)).map
       blend_grid_right)

structure CrashTimeRow where
  h3_cell : String
  time_period : String
  day_type : String
  global_risk_score : ℚ
deriving DecidableEq

structure CrimeTimeRow where
  h3_cell : String
  time_period : String
  day_type : String
  global_risk_score : ℚ
deriving DecidableEq

structure CombinedTimeRow where
  h3_cell : String
  time_period : String
  day_type : String
  crash_time_score : ℚ
  crime_time_score : ℚ
deriving DecidableEq

/-- Whether two time rows share the `(h3_cell, time_period, day_type)` key. -/
def same_time_key (a : String × String × String) (b : String × String × String) : Bool :=
  a.1 == b.1 && a.2.1 == b.2.1 && a.2.2 == b.2.2

/-- A crash time row joined with its matching crime time row (or 0). -/
def blend_time_left (crt : List CrimeTimeRow) (a : CrashTimeRow) : CombinedTimeRow :=
  match crt.find? (fun b => same_time_key
      (a.h3_cell, a.time_period, a.day_type) (b.h3_cell, b.time_period, b.day_type)) with
  | some b =>
    ⟨a.h3_cell, a.time_period, a.day_type, a.global_risk_score, b.global_risk_score⟩
  | none =>
    ⟨a.h3_cell, a.time_period, a.day_type, a.global_risk_score, 0⟩

/-- Time-level outer merge of `blend_risks` on `(h3_cell, time_period,
day_type)`; each side's `global_risk_score` is renamed to its
`crash_time_score` / `crime_time_score`, absent sides fill with 0. -/
def blend_time (ct : List CrashTimeRow) (crt : List CrimeTimeRow) :
    List CombinedTimeRow :=
  ct.map (blend_time_left crt)
  ++ ((crt.filter (fun b => ! ct.any (fun a => same_time_key
        (a.h3_cell, a.time_period, a.day_type) (b.h3_cell, b.time_period, b.day_type)))).map
      fun b => ⟨b.h3_cell, b.time_period, b.day_type, 0, b.global_risk_score⟩)

end RiskPipeline

namespace RiskPipeline

/-! ## Exporter (export.py `export_routing_api_format`)

Builds the `routing_risk_api.json` exchange file: one `CellInfo` per grid
row (dict insertion, later rows overwrite), then the crash and crime time
modifiers, then the metadata block. `row.get(col, default)` on possibly
absent DataFrame columns is modelled with `Option` fields. -/

structure ExportGridRow where
  h3_cell : String
  risk_score : ℚ
  smoothed_risk : Option ℚ
  pedestrian_risk : Option ℚ
  cyclist_risk : Option ℚ
  crime_risk : Option ℚ
  smoothed_crime_risk : Option ℚ
  crash_count : Option ℤ
  crime_count : Option ℤ
  crash_severity : Option ℚ
  total_severity : Option ℚ
deriving DecidableEq

/-- Set `k` to `v` in an association list with Python-dict semantics:
overwrite in place if present, else append. -/
def assoc_set {α : Type} (m : List (String × α)) (k : String) (v : α) :
    List (String × α) :=
  if m.any (fun p => p.1 == k) then
    m.map (fun p => if p.1 == k then (k, v) else p)
  else m ++ [(k, v)]

/-- The per-row cell dict written by the first loop of
`export_routing_api_format`. -/
def build_cell (row : ExportGridRow) : CellInfo :=
  { base_risk := row.risk_score,
    smoothed_risk := row.smoothed_risk.getD row.risk_score,
    pedestrian_risk := row.pedestrian_risk.getD 0,
    cyclist_risk := row.cyclist_risk.getD 0,
    crime_risk := row.crime_risk.getD 0,
    smoothed_crime_risk := row.smoothed_crime_risk.getD 0,
    crash_count := row.crash_count.getD 0,
    crime_count := row.crime_count.getD 0,
    total_severity := row.crash_severity.getD (row.total_severity.getD 0),
    time_modifiers := [],
    crime_time_modifiers := [] }

/-- First loop: `cells[cell_id] = {...}` for each grid row. -/
def build_cells (grid : List ExportGridRow) : List (String × CellInfo) :=
  grid.foldl (fun m row => assoc_set m row.h3_cell (build_cell row)) []

/-- Second loop: crash time modifiers
(`modifier = global_risk_score / base_risk` if the base is positive, else 1;
rounded to 3 places; skipped when the cell is not in `cells`). -/
def add_time_modifiers (cells : List (String × CellInfo))
    (time_df : Option (List CrashTimeRow)) : List (String × CellInfo) :=
  match time_df with
  | none => cells
  | some rows =>
    rows.foldl (fun m row =>
      match m.lookup row.h3_cell with
      | none => m
      | some ci =>
        let key := row.time_period ++ "_" ++ row.day_type
        let modifier := if ci.base_risk > 0 then row.global_risk_score / ci.base_risk else 1
        assoc_set m row.h3_cell
          { ci with time_modifiers := assoc_set ci.time_modifiers key (round3 modifier) })
      cells

/-- Third loop: crime time modifiers against `crime_risk` as the base. -/
def add_crime_time_modifiers (cells : List (String × CellInfo))
    (combined_time_df : Option (List CombinedTimeRow)) : List (String × CellInfo) :=
  match combined_time_df with
  | none => cells
  | some rows =>
    rows.foldl (fun m row =>
      match m.lookup row.h3_cell with
      | none => m
      | some ci =>
        let key := row.time_period ++ "_" ++ row.day_type
        let modifier := if ci.crime_risk > 0 then row.crime_time_score / ci.crime_risk else 1
        assoc_set m row.h3_cell
          { ci with crime_time_modifiers := assoc_set ci.crime_time_modifiers key (round3 modifier) })
      cells

/-- `export_routing_api_format`: the exchange file it writes. Note the
metadata block sets `has_crime_data` to the literal `True`. -/
def export_routing_api_format (grid : List ExportGridRow)
    (time_df : Option (List CrashTimeRow))
    (combined_time_df : Option (List CombinedTimeRow)) : RiskApiFile :=
  let cells := add_crime_time_modifiers (add_time_modifiers (build_cells grid) time_df)
    combined_time_df
  { metadata := some { has_crime_data := some true, total_cells := some cells.length },
    cells := some cells }

end RiskPipeline

namespace RiskPipeline

/-! ## Claim theorems -/

/-- The scenario cell of the spec: base_risk 60, crime_risk 40,
time_modifier(night_weekday) 1.5, crime_time_modifier(night_weekday) 2.0. -/
def c1_cell : CellInfo :=
  { base_risk := 60, smoothed_risk := 0, pedestrian_risk := 0, cyclist_risk := 0,
    crime_risk := 40, smoothed_crime_risk := 0, crash_count := 0, crime_count := 0,
    total_severity := 0,
    time_modifiers := [("night_weekday", 3/2)],
    crime_time_modifiers := [("night_weekday", 2)] }

/-- C1: blended risk equals crash_weight*(base_risk*time_modifier) +
crime_weight*(crime_risk*crime_time_modifier), each modifier defaulting to
1.0 when its bucket key is absent, except that with crime_risk == 0 and no
crime data the crash component alone is returned; on the spec's scenario
cell the night_weekday value is exactly 83 for walking and 89 for driving. -/
theorem c1_blended_risk :
    (∀ (b : Bool) (ci : CellInfo) (tk mode : String),
      get_blended_risk b ci tk mode =
        if ci.crime_risk = 0 ∧ b = false then
          ci.base_risk * ((ci.time_modifiers.lookup tk).getD 1)
        else
          (modeWeights mode).1 * (ci.base_risk * ((ci.time_modifiers.lookup tk).getD 1)) +
          (modeWeights mode).2 * (ci.crime_risk * ((ci.crime_time_modifiers.lookup tk).getD 1))) ∧
    (∀ (b : Bool) (ci : CellInfo) (tk mode : String),
      ci.time_modifiers.lookup tk = none → ci.crime_time_modifiers.lookup tk = none →
      ¬ (ci.crime_risk = 0 ∧ b = false) →
      get_blended_risk b ci tk mode =
        (modeWeights mode).1 * ci.base_risk + (modeWeights mode).2 * ci.crime_risk) ∧
    (∀ b : Bool, get_blended_risk b c1_cell "night_weekday" "walking" = 83) ∧
    (∀ b : Bool, get_blended_risk b c1_cell "night_weekday" "driving" = 89) := by
  refine ⟨fun b ci tk mode => rfl, fun b ci tk mode h1 h2 h3 => ?_, fun b => ?_, fun b => ?_⟩
  · simp [get_blended_risk, h1, h2, h3]
  · have hw : modeWeights "walking" = (3/10, 7/10) := rfl
    have hm : c1_cell.time_modifiers.lookup "night_weekday" = some (3/2) := rfl
    have hcm : c1_cell.crime_time_modifiers.lookup "night_weekday" = some 2 := rfl
    cases b <;> norm_num [get_blended_risk, hw, hm, hcm, c1_cell]
  · have hd : modeWeights "driving" = (9/10, 1/10) := rfl
    have hm : c1_cell.time_modifiers.lookup "night_weekday" = some (3/2) := rfl
    have hcm : c1_cell.crime_time_modifiers.lookup "night_weekday" = some 2 := rfl
    cases b <;> norm_num [get_blended_risk, hd, hm, hcm, c1_cell]

theorem c1_blended_risk_witness :
    get_blended_risk true c1_cell "night_weekday" "walking" = 83 ∧
    get_blended_risk true c1_cell "night_weekday" "driving" = 89 ∧
    ((c1_cell.time_modifiers.lookup "midday_weekend" = none ∧
      ¬ (c1_cell.crime_risk = 0 ∧ true = false)) ∧
     get_blended_risk true c1_cell "midday_weekend" "walking" =
       (modeWeights "walking").1 * c1_cell.base_risk +
       (modeWeights "walking").2 * c1_cell.crime_risk) :=
  ⟨c1_blended_risk.2.2.1 true, c1_blended_risk.2.2.2 true,
   ⟨⟨by decide, by decide⟩,
    c1_blended_risk.2.1 true c1_cell "midday_weekend" "walking"
      (by decide) (by decide) (by decide)⟩⟩

/-- C2: the weight callable handed to the shortest-path search prices an
edge as its base travel time plus beta times the blended risk of the cell
of the edge's origin node u; the destination node never enters, and a cell
without a record in the loaded risk table uses the fixed default 2.0. -/
theorem c2_edge_cost :
    (∀ (E : RoutingEngine) (beta : ℚ) (tk mode : String) (u v : ℕ) (d : EdgeData),
      risk_cost_func E beta tk mode u v d =
        d.travel_time.getD 1 + beta *
          (match E.risk_data.lookup (E.latlng_to_cell (E.node_coord u)) with
           | some ci => get_blended_risk E.has_crime_data ci tk mode
           | none => 2)) ∧
    (∀ (E : RoutingEngine) (beta : ℚ) (tk mode : String) (u v v' : ℕ) (d : EdgeData),
      risk_cost_func E beta tk mode u v d = risk_cost_func E beta tk mode u v' d) ∧
    (∀ (E : RoutingEngine) (beta : ℚ) (tk mode : String) (u v : ℕ) (d : EdgeData),
      E.risk_data.lookup (E.latlng_to_cell (E.node_coord u)) = none →
      risk_cost_func E beta tk mode u v d = d.travel_time.getD 1 + beta * 2) ∧
    (∀ (E : RoutingEngine) (s e : ℚ × ℚ) (beta : ℚ) (hour : ℤ) (w : Bool) (mode : String),
      get_route E s e beta hour w mode =
        (E.shortest_path
            (fun u v d => risk_cost_func E beta (get_time_key hour w) mode u v d)
            (E.nearest_nodes s) (E.nearest_nodes e)).map
          (fun p => p.map E.node_coord)) := by
  refine ⟨fun E beta tk mode u v d => rfl,
          fun E beta tk mode u v v' d => rfl,
          fun E beta tk mode u v d h => ?_,
          fun E s e beta hour w mode => rfl⟩
  simp [risk_cost_func, h]

/-- A minimal concrete engine: nodes 0 and 1, one directed edge 0 → 1,
no loaded risk records, bounding box [0,1] × [0,1]. -/
def tiny_engine : RoutingEngine :=
  { edges := fun u v => if u = 0 ∧ v = 1 then some ⟨some 5⟩ else none,
    node_coord := fun n => if n = 0 then ((0 : ℚ), (0 : ℚ)) else (1, 1),
    nearest_nodes := fun c => if c = ((0 : ℚ), (0 : ℚ)) then 0 else 1,
    latlng_to_cell := fun c => if c = ((0 : ℚ), (0 : ℚ)) then "cellA" else "cellB",
    risk_data := [],
    has_crime_data := false,
    bounds := ⟨0, 1, 0, 1⟩,
    shortest_path := fun _ _ _ => some [0, 1] }

theorem c2_edge_cost_witness :
    tiny_engine.risk_data.lookup
        (tiny_engine.latlng_to_cell (tiny_engine.node_coord 0)) = none ∧
    risk_cost_func tiny_engine 3 "night_weekday" "walking" 0 1 ⟨some 5⟩ =
      (⟨some 5⟩ : EdgeData).travel_time.getD 1 + 3 * 2 :=
  ⟨by decide,
   c2_edge_cost.2.2.1 tiny_engine 3 "night_weekday" "walking" 0 1 ⟨some 5⟩ (by decide)⟩

/-- C10: the routing engine's stored bounding box never influences
get_route, which snaps and searches for any input coordinates and has no
coverage-error outcome at all; get_comparison is the operation that checks
is_in_bounds and raises on an out-of-bounds endpoint. -/
theorem c10_no_bounds_check
    (E : RoutingEngine) (b : Bounds) (s e : ℚ × ℚ) (beta : ℚ)
    (hour : ℤ) (w : Bool) (mode : String) :
    get_route (set_bounds E b) s e beta hour w mode = get_route E s e beta hour w mode ∧
    (¬ (is_in_bounds E s.1 s.2 ∧ is_in_bounds E e.1 e.2) →
      ∃ msg, get_comparison E s e beta hour w mode = Except.error msg) := by
  refine ⟨rfl, fun h => ?_⟩
  by_cases h1 : is_in_bounds E s.1 s.2
  · have h2 : ¬ is_in_bounds E e.1 e.2 := fun h2 => h ⟨h1, h2⟩
    exact ⟨"End point outside Manhattan coverage area", by simp [get_comparison, h1, h2]⟩
  · exact ⟨"Start point outside Manhattan coverage area", by simp [get_comparison, h1]⟩

theorem c10_no_bounds_check_witness :
    (¬ (is_in_bounds tiny_engine (5 : ℚ) (5 : ℚ) ∧ is_in_bounds tiny_engine (0 : ℚ) (0 : ℚ))) ∧
    get_route (set_bounds tiny_engine ⟨0, 2, 0, 2⟩) (5, 5) (0, 0) 1 12 false "walking" =
      get_route tiny_engine (5, 5) (0, 0) 1 12 false "walking" ∧
    (∃ msg, get_comparison tiny_engine (5, 5) (0, 0) 1 12 false "walking" =
      Except.error msg) :=
  ⟨by decide,
   (c10_no_bounds_check tiny_engine ⟨0, 2, 0, 2⟩ (5, 5) (0, 0) 1 12 false "walking").1,
   (c10_no_bounds_check tiny_engine ⟨0, 2, 0, 2⟩ (5, 5) (0, 0) 1 12 false "walking").2
     (by decide)⟩

/-- C4 counterexample: at hour 22 the routing engine's time key is
night_weekday, not the evening_weekday the claim requires for all of
[19,24). -/
theorem c4_counterexample :
    get_time_key 22 false = "night_weekday" ∧
    get_time_key 22 false ≠ "evening_weekday" ∧
    get_period 22 = "evening" := by
  refine ⟨by decide, by decide, by decide⟩

/-- C4 (amended to the counterexample): for local hours in [0,24) the two
aggregation-stage period tables map night[0,6), morning_rush[6,9),
midday[9,16), evening_rush[16,19) and evening[19,24); the routing engine
agrees except that its evening bucket is [19,22), hours 22 and 23 falling
to its explicit night default. -/
theorem c4_time_periods (h : ℤ) (h0 : 0 ≤ h) (h24 : h < 24) :
    (get_period h =
      if h < 6 then "night" else if h < 9 then "morning_rush"
      else if h < 16 then "midday" else if h < 19 then "evening_rush"
      else "evening") ∧
    crime_get_period h = get_period h ∧
    (∀ w : Bool, get_time_key h w =
      (if h < 6 then "night" else if h < 9 then "morning_rush"
       else if h < 16 then "midday" else if h < 19 then "evening_rush"
       else if h < 22 then "evening" else "night")
      ++ "_" ++ (if w then "weekend" else "weekday")) := by
  interval_cases h <;> exact ⟨by decide, by decide, fun w => by cases w <;> decide⟩

theorem c4_time_periods_witness :
    (0 : ℤ) ≤ 20 ∧ (20 : ℤ) < 24 ∧
    get_period 20 = "evening" ∧ crime_get_period 20 = get_period 20 ∧
    get_time_key 20 false = "evening_weekday" :=
  ⟨by decide, by decide,
   (c4_time_periods 20 (by decide) (by decide)).1,
   (c4_time_periods 20 (by decide) (by decide)).2.1,
   (c4_time_periods 20 (by decide) (by decide)).2.2 false⟩

end RiskPipeline

namespace RiskPipeline

theorem blend_grid_left_h3 (crime : List CrimeGridRow) (cr : CrashGridRow) :
    (blend_grid_left crime cr).h3_cell = cr.h3_cell := by
  unfold blend_grid_left
  split <;> rfl

theorem blend_time_left_key (crt : List CrimeTimeRow) (a : CrashTimeRow) :
    ((blend_time_left crt a).h3_cell, (blend_time_left crt a).time_period,
     (blend_time_left crt a).day_type) = (a.h3_cell, a.time_period, a.day_type) := by
  unfold blend_time_left
  split <;> rfl

theorem same_time_key_iff (x y : String × String × String) :
    same_time_key x y = true ↔ x = y := by
  simp [same_time_key, Prod.ext_iff, and_assoc]

/-- C9: the blender's combined per-cell output covers exactly the union of
the two sources' cell-id sets, a side absent for a cell contributes zeros
for all its fields, and the combined time table covers exactly the union
of the two sources' (cell, period, day-type) key sets. -/
theorem c9_blend_union :
    (∀ (crash : List CrashGridRow) (crime : List CrimeGridRow) (c : String),
      c ∈ (blend_grid crash crime).map (fun r => r.h3_cell) ↔
      c ∈ crash.map (fun r => r.h3_cell) ∨ c ∈ crime.map (fun r => r.h3_cell)) ∧
    (∀ (crash : List CrashGridRow) (crime : List CrimeGridRow) (cr : CrashGridRow),
      cr ∈ crash → (∀ sr ∈ crime, sr.h3_cell ≠ cr.h3_cell) →
      ∃ row ∈ blend_grid crash crime, row.h3_cell = cr.h3_cell ∧
        row.crime_risk = 0 ∧ row.smoothed_crime_risk = 0 ∧ row.crime_count = 0) ∧
    (∀ (crash : List CrashGridRow) (crime : List CrimeGridRow) (sr : CrimeGridRow),
      sr ∈ crime → (∀ cr ∈ crash, cr.h3_cell ≠ sr.h3_cell) →
      ∃ row ∈ blend_grid crash crime, row.h3_cell = sr.h3_cell ∧
        row.risk_score = 0 ∧ row.smoothed_risk = 0 ∧ row.pedestrian_risk = 0 ∧
        row.cyclist_risk = 0 ∧ row.crash_count = 0 ∧ row.crash_severity = 0) ∧
    (∀ (ct : List CrashTimeRow) (crt : List CrimeTimeRow) (k : String × String × String),
      (∃ row ∈ blend_time ct crt, (row.h3_cell, row.time_period, row.day_type) = k) ↔
      (∃ a ∈ ct, (a.h3_cell, a.time_period, a.day_type) = k) ∨
      (∃ b ∈ crt, (b.h3_cell, b.time_period, b.day_type) = k)) := by
  refine ⟨?_, ?_, ?_, ?_⟩
  · intro crash crime c
    simp only [blend_grid, List.map_append, List.mem_append, List.map_map]
    constructor
    · rintro (h | h)
      · obtain ⟨cr, hcr, hec⟩ := List.mem_map.mp h
        exact Or.inl (List.mem_map.mpr ⟨cr, hcr, by
          rw [← blend_grid_left_h3 crime cr]; exact hec⟩)
      · obtain ⟨sr, hsr, hec⟩ := List.mem_map.mp h
        exact Or.inr (List.mem_map.mpr ⟨sr, (List.mem_filter.mp hsr).1, hec⟩)
    · rintro (h | h)
      · obtain ⟨cr, hcr, rfl⟩ := List.mem_map.mp h
        exact Or.inl (List.mem_map.mpr ⟨cr, hcr, blend_grid_left_h3 crime cr⟩)
      · obtain ⟨sr, hsr, rfl⟩ := List.mem_map.mp h
        by_cases hin : sr.h3_cell ∈ crash.map (fun r => r.h3_cell)
        · obtain ⟨cr, hcr, hcc⟩ := List.mem_map.mp hin
          exact Or.inl (List.mem_map.mpr ⟨cr, hcr, by
            show (blend_grid_left crime cr).h3_cell = sr.h3_cell
            rw [blend_grid_left_h3 crime cr]; exact hcc⟩)
        · refine Or.inr (List.mem_map.mpr ⟨sr, List.mem_filter.mpr ⟨hsr, ?_⟩, rfl⟩)
          simpa using hin
  · intro crash crime cr hcr hnone
    have hfind : crime.find? (fun sr => sr.h3_cell == cr.h3_cell) = none :=
      List.find?_eq_none.mpr (fun sr hsr => by simpa using hnone sr hsr)
    refine ⟨blend_grid_left crime cr,
      List.mem_append_left _ (List.mem_map_of_mem _ hcr), ?_⟩
    rw [blend_grid_left]
    rw [hfind]
    exact ⟨rfl, rfl, rfl, rfl⟩
  · intro crash crime sr hsr hnone
    have hfil : sr ∈ crime.filter
        (fun sr => ! (crash.map (·.h3_cell)).contains sr.h3_cell) := by
      refine List.mem_filter.mpr ⟨hsr, ?_⟩
      have : sr.h3_cell ∉ crash.map (fun r => r.h3_cell) := by
        intro hmem
        obtain ⟨cr, hcr, hcc⟩ := List.mem_map.mp hmem
        exact hnone cr hcr hcc
      simpa using this
    exact ⟨blend_grid_right sr,
      List.mem_append_right _ (List.mem_map_of_mem _ hfil),
      rfl, rfl, rfl, rfl, rfl, rfl, rfl⟩
  · intro ct crt k
    simp only [blend_time, List.map_append, List.mem_append, List.map_map]
    constructor
    · rintro ⟨row, hrow, rfl⟩
      rcases hrow with h | h
      · obtain ⟨a, ha, rfl⟩ := List.mem_map.mp h
        exact Or.inl ⟨a, ha, (blend_time_left_key crt a).symm⟩
      · obtain ⟨b, hb, rfl⟩ := List.mem_map.mp h
        exact Or.inr ⟨b, (List.mem_filter.mp hb).1, rfl⟩
    · rintro (⟨a, ha, rfl⟩ | ⟨b, hb, hbk⟩)
      · exact ⟨blend_time_left crt a,
          Or.inl (List.mem_map_of_mem _ ha),
          blend_time_left_key crt a⟩
      · by_cases hex : ct.any (fun a => same_time_key
            (a.h3_cell, a.time_period, a.day_type)
            (b.h3_cell, b.time_period, b.day_type)) = true
        · obtain ⟨a, ha, hk⟩ := List.any_eq_true.mp hex
          have hk' := (same_time_key_iff _ _).mp hk
          exact ⟨blend_time_left crt a,
            Or.inl (List.mem_map_of_mem _ ha),
            by rw [blend_time_left_key crt a, hk']; exact hbk⟩
        · have hfalse : (ct.any fun a => same_time_key
              (a.h3_cell, a.time_period, a.day_type)
              (b.h3_cell, b.time_period, b.day_type)) = false := by
            cases hha : (ct.any fun a => same_time_key
              (a.h3_cell, a.time_period, a.day_type)
              (b.h3_cell, b.time_period, b.day_type)) with
            | false => rfl
            | true => exact absurd hha hex
          refine ⟨⟨b.h3_cell, b.time_period, b.day_type, 0, b.global_risk_score⟩,
            Or.inr (List.mem_map_of_mem _
              (List.mem_filter.mpr ⟨hb, by rw [hfalse]; rfl⟩)), hbk⟩

theorem c9_blend_union_witness :
    (∀ sr ∈ ([] : List CrimeGridRow), sr.h3_cell ≠ "a") ∧
    (∃ row ∈ blend_grid [⟨"a", 10, 10, 0, 0, 2, 30⟩] [], row.h3_cell = "a" ∧
      row.crime_risk = 0 ∧ row.smoothed_crime_risk = 0 ∧ row.crime_count = 0) ∧
    ("a" ∈ (blend_grid [⟨"a", 10, 10, 0, 0, 2, 30⟩] []).map (fun r => r.h3_cell) ↔
      "a" ∈ ([⟨"a", 10, 10, 0, 0, 2, 30⟩] : List CrashGridRow).map (fun r => r.h3_cell) ∨
      "a" ∈ ([] : List CrimeGridRow).map (fun r => r.h3_cell)) :=
  ⟨fun sr hsr => absurd hsr (List.not_mem_nil sr),
   c9_blend_union.2.1 [⟨"a", 10, 10, 0, 0, 2, 30⟩] [] ⟨"a", 10, 10, 0, 0, 2, 30⟩
     (List.mem_singleton.mpr rfl) (fun sr hsr => absurd hsr (List.not_mem_nil sr)),
   c9_blend_union.1 [⟨"a", 10, 10, 0, 0, 2, 30⟩] [] "a"⟩

/-- The all-zero-crime grid row used to refute C3's exporter clause. -/
def c3_row : ExportGridRow :=
  { h3_cell := "cellA", risk_score := 5, smoothed_risk := none, pedestrian_risk := none,
    cyclist_risk := none, crime_risk := some 0, smoothed_crime_risk := none,
    crash_count := some 3, crime_count := some 0, crash_severity := none,
    total_severity := some 7 }

/-- C3 counterexample: exporting a grid that contains no crime at all (the
only row has crime_risk 0 and crime_count 0, and no crime time table) still
writes metadata.has_crime_data = true, so the flag does not record whether
any crime data is present in the aggregation input. -/
theorem c3_counterexample :
    ((export_routing_api_format [c3_row] none none).metadata.bind
        (fun m => m.has_crime_data)).getD false = true ∧
    c3_row.crime_risk = some 0 ∧ c3_row.crime_count = some 0 :=
  ⟨rfl, rfl, rfl⟩

/-- C3 (amended to the counterexample): the exporter writes
has_crime_data = true unconditionally, for every input; the routing
engine's loaded flag is whatever the file's metadata says (default false),
and that loaded value alone controls the crash-only fallback of blending
for cells with crime_risk 0. -/
theorem c3_has_crime_flag :
    (∀ (grid : List ExportGridRow) (t : Option (List CrashTimeRow))
       (ct : Option (List CombinedTimeRow)),
      ((export_routing_api_format grid t ct).metadata.bind
        (fun m => m.has_crime_data)).getD false = true) ∧
    (∀ (E : RoutingEngine) (file : RiskApiFile),
      (load_risk_api E file).has_crime_data =
        (file.metadata.bind (fun m => m.has_crime_data)).getD false ∧
      (load_risk_api E file).risk_data = file.cells.getD []) ∧
    (∀ (ci : CellInfo) (tk mode : String), ci.crime_risk = 0 →
      get_blended_risk false ci tk mode =
        ci.base_risk * ((ci.time_modifiers.lookup tk).getD 1)) ∧
    (∀ (ci : CellInfo) (tk mode : String), ci.crime_risk = 0 →
      get_blended_risk true ci tk mode =
        (modeWeights mode).1 *
          (ci.base_risk * ((ci.time_modifiers.lookup tk).getD 1))) := by
  refine ⟨fun grid t ct => rfl, fun E file => ⟨rfl, rfl⟩,
          fun ci tk mode h => ?_, fun ci tk mode h => ?_⟩
  · simp [get_blended_risk, h]
  · simp [get_blended_risk, h]

/-- The crash-only cell of the repository's blending tests: base risk 50,
night_weekday modifier 1.3, no crime. -/
def c3_cell : CellInfo :=
  { base_risk := 50, smoothed_risk := 0, pedestrian_risk := 0, cyclist_risk := 0,
    crime_risk := 0, smoothed_crime_risk := 0, crash_count := 0, crime_count := 0,
    total_severity := 0,
    time_modifiers := [("night_weekday", 13/10)],
    crime_time_modifiers := [] }

theorem c3_has_crime_flag_witness :
    c3_cell.crime_risk = 0 ∧
    get_blended_risk false c3_cell "night_weekday" "walking" =
      c3_cell.base_risk * ((c3_cell.time_modifiers.lookup "night_weekday").getD 1) ∧
    get_blended_risk true c3_cell "night_weekday" "walking" =
      (modeWeights "walking").1 *
        (c3_cell.base_risk * ((c3_cell.time_modifiers.lookup "night_weekday").getD 1)) :=
  ⟨rfl,
   c3_has_crime_flag.2.2.1 c3_cell "night_weekday" "walking" rfl,
   c3_has_crime_flag.2.2.2 c3_cell "night_weekday" "walking" rfl⟩

end RiskPipeline

namespace RiskPipeline

theorem time_weight_pos (d : ℤ) : 0 < time_weight d := by
  unfold time_weight
  split_ifs <;> norm_num

theorem foldr_max_nonneg (l : List ℚ) : 0 ≤ l.foldr max 0 := by
  induction l with
  | nil => exact le_refl 0
  | cons x xs ih => exact le_trans ih (le_max_right x _)

theorem le_foldr_max {x : ℚ} {l : List ℚ} (h : x ∈ l) : x ≤ l.foldr max 0 := by
  induction l with
  | nil => cases h
  | cons y ys ih =>
    rcases List.mem_cons.mp h with rfl | h'
    · exact le_max_left _ _
    · exact le_trans (ih h') (le_max_right _ _)

theorem weighted_severity_nonneg {rows : List IncidentRow} {c : String}
    (hnn : ∀ r ∈ rows, 0 ≤ r.severity) : 0 ≤ weighted_severity rows c := by
  apply List.sum_nonneg
  intro x hx
  obtain ⟨r, hr, rfl⟩ := List.mem_map.mp hx
  exact mul_nonneg (hnn r (List.mem_filter.mp hr).1) (time_weight_pos r.days_ago).le

theorem weighted_le_max {rows : List IncidentRow} {c : String}
    (hc : c ∈ agg_cells rows) : weighted_severity rows c ≤ max_weighted rows :=
  le_foldr_max (List.mem_map_of_mem _ hc)

/-- C7 (amended to the counterexample): with nonnegative severities every
aggregated cell's normalized score lies in [0,100]; a cell at the maximal
weighted severity scores exactly 100 (when that maximum is positive); all
scores are 0 when the maximum is 0; and the crime aggregator normalizes
identically. The "only cells at the maximum reach 100" direction is false
because of the 2-decimal rounding (see the counterexample). -/
theorem c7_score_range (rows : List IncidentRow) (c : String)
    (hnn : ∀ r ∈ rows, 0 ≤ r.severity) (hc : c ∈ agg_cells rows) :
    (0 ≤ risk_score rows c ∧ risk_score rows c ≤ 100) ∧
    (weighted_severity rows c = max_weighted rows → 0 < max_weighted rows →
      risk_score rows c = 100) ∧
    (max_weighted rows = 0 → risk_score rows c = 0) ∧
    crime_risk_score rows c = risk_score rows c := by
  have hw0 : 0 ≤ weighted_severity rows c := weighted_severity_nonneg hnn
  have hwm : weighted_severity rows c ≤ max_weighted rows := weighted_le_max hc
  refine ⟨?_, ?_, ?_, rfl⟩
  · unfold risk_score
    split
    · rename_i hpos
      constructor
      · have hd : 0 ≤ weighted_severity rows c / max_weighted rows :=
          div_nonneg hw0 hpos.le
        have h0 : ((0 : ℤ) : ℚ) / 100 ≤
            weighted_severity rows c / max_weighted rows * 100 := by
          have := mul_nonneg hd (by norm_num : (0 : ℚ) ≤ 100)
          push_cast
          linarith
        have := le_round2_of_le h0
        simpa using this
      · have hdiv : weighted_severity rows c / max_weighted rows ≤ 1 :=
          (div_le_one hpos).mpr hwm
        have h1 : weighted_severity rows c / max_weighted rows * 100 ≤
            ((10000 : ℤ) : ℚ) / 100 := by
          push_cast
          linarith
        have h2 := round2_le_of_le h1
        have h3 : ((10000 : ℤ) : ℚ) / 100 = 100 := by norm_num
        rw [h3] at h2
        exact h2
    · exact ⟨le_refl 0, by norm_num⟩
  · intro heq hpos
    unfold risk_score
    rw [if_pos hpos, heq, div_self (ne_of_gt hpos), one_mul]
    have h100 := round2_fixed 10000
    have h2 : ((10000 : ℤ) : ℚ) / 100 = 100 := by norm_num
    rw [h2] at h100
    exact h100
  · intro h0
    unfold risk_score
    rw [if_neg (by rw [h0]; exact lt_irrefl 0)]

/-- Nonnegative-severity incident rows for the C7 witness. -/
def c7_rows : List IncidentRow := [⟨"cellA", 3, 400⟩, ⟨"cellB", 1, 400⟩]

theorem c7_score_range_witness :
    (∀ r ∈ c7_rows, 0 ≤ r.severity) ∧ "cellA" ∈ agg_cells c7_rows ∧
    (0 ≤ risk_score c7_rows "cellA" ∧ risk_score c7_rows "cellA" ≤ 100) := by
  have hnn : ∀ r ∈ c7_rows, 0 ≤ r.severity := by
    intro r hr
    fin_cases hr <;> norm_num
  have hc : "cellA" ∈ agg_cells c7_rows := by decide
  exact ⟨hnn, hc, (c7_score_range c7_rows "cellA" hnn hc).1⟩

/-- Two cells whose weighted severities are 25000 and 24999: the ratio
24999/25000 rounds to exactly 100.00 at 2 decimals. -/
def c7_bad : List IncidentRow := [⟨"A", 25000, 400⟩, ⟨"B", 24999, 400⟩]

/-- C7 counterexample: cell B scores 100 although its weighted severity is
not the maximum, so it is not true that exactly the cells at maximal
weighted severity receive score 100. -/
theorem c7_counterexample :
    risk_score c7_bad "B" = 100 ∧
    weighted_severity c7_bad "B" ≠ max_weighted c7_bad := by
  have hwB : weighted_severity c7_bad "B" = 24999 := by
    simp [weighted_severity, c7_bad, row_weighted_severity, time_weight]
  have hmax : max_weighted c7_bad = 25000 := by
    simp [max_weighted, agg_cells, c7_bad, weighted_severity,
      row_weighted_severity, time_weight]
    norm_num [max_def]
  constructor
  · unfold risk_score
    rw [hwB, hmax, if_pos (by norm_num)]
    unfold round2
    have hm : (24999 : ℚ) / 25000 * 100 * 100 = 49998 / 5 := by norm_num
    rw [hm]
    have hf : ⌊(49998 : ℚ) / 5⌋ = 9999 := by norm_num [Int.floor_eq_iff]
    unfold rhe
    rw [hf]
    norm_num
  · rw [hwB, hmax]
    norm_num

end RiskPipeline

namespace RiskPipeline

/-- The second argument of the 0.7/0.3 smoothing blend: the mean
pre-smoothing score of the aggregated 1-ring neighbors when there are any,
else the city-wide mean. -/
def smoothing_reference (grid : List GridCell) (ring : String → List String)
    (row : GridCell) : ℚ :=
  let nd := neighbor_rows grid ring row.h3_cell
  if nd.length > 0 then ((nd.map (·.risk_score)).sum) / (nd.length : ℚ)
  else city_avg grid

/-- Rounding a 0.7/0.3 convex blend to 2 decimals cannot leave the hull of
its endpoints, provided the `own` endpoint is a 2-decimal grid value. -/
theorem round2_blend_bounds (own avg : ℚ) (hown : ∃ k : ℤ, own = (k : ℚ) / 100) :
    min own avg ≤ round2 (own * (7/10) + avg * (3/10)) ∧
    round2 (own * (7/10) + avg * (3/10)) ≤ max own avg := by
  obtain ⟨a, rfl⟩ := hown
  set A : ℚ := avg * 100 with hA
  have hx : ((a : ℚ)/100 * (7/10) + avg * (3/10)) * 100 = (7 * a + 3 * A) / 10 := by
    rw [hA]; ring
  unfold round2
  rw [hx]
  set x : ℚ := (7 * a + 3 * A) / 10 with hxdef
  have havg : avg = A / 100 := by rw [hA]; field_simp
  rcases le_or_lt ((a : ℚ)/100) avg with hle | hgt
  · have haA : (a : ℚ) ≤ A := by rw [havg] at hle; linarith
    have hxA : x ≤ A := by rw [hxdef]; linarith
    have hax : (a : ℚ) ≤ x := by rw [hxdef]; linarith
    rw [min_eq_left hle, max_eq_right hle]
    constructor
    · have h1 : a ≤ rhe x := int_le_rhe hax
      have h1' : ((a : ℤ) : ℚ) ≤ (rhe x : ℚ) := by exact_mod_cast h1
      linarith
    · have hupper : (rhe x : ℚ) ≤ A := by
        rcases rhe_cases x with ⟨hc, _⟩ | ⟨hc, hf⟩
        · rw [hc]; exact le_trans (Int.floor_le x) hxA
        · rw [hc]
          by_contra hcon
          push_neg at hcon
          push_cast at hcon
          have hfl : ((⌊A⌋ : ℤ) : ℚ) ≤ ((⌊x⌋ : ℤ) : ℚ) := by
            have h5 : (⌊A⌋ : ℚ) ≤ A := Int.floor_le A
            have h6 : (⌊A⌋ : ℚ) < (⌊x⌋ : ℚ) + 1 := by linarith
            have h7 : ⌊A⌋ < ⌊x⌋ + 1 := by exact_mod_cast h6
            have h8 : ⌊A⌋ ≤ ⌊x⌋ := by omega
            exact_mod_cast h8
          have h2 : (⌊x⌋ : ℚ) ≤ x - 1/2 := by linarith
          have h3 : ((a : ℤ) : ℚ) ≤ ((⌊A⌋ : ℤ) : ℚ) := by
            exact_mod_cast Int.le_floor.mpr haA
          have h4 : A < (⌊A⌋ : ℚ) + 1 := Int.lt_floor_add_one A
          have hx10 : 10 * x = 7 * a + 3 * A := by rw [hxdef]; ring
          linarith
      rw [havg]
      linarith
  · have haA : A < (a : ℚ) := by rw [havg] at hgt; linarith
    have hxA : A ≤ x := by rw [hxdef]; linarith
    have hax : x ≤ (a : ℚ) := by rw [hxdef]; linarith
    rw [min_eq_right hgt.le, max_eq_left hgt.le]
    constructor
    · have hlower : A ≤ (rhe x : ℚ) := by
        rcases rhe_cases x with ⟨hc, hf⟩ | ⟨hc, _⟩
        · rw [hc]
          by_contra hcon
          push_neg at hcon
          have hceil1 : ((⌈A⌉ : ℤ) : ℚ) ≤ ((a : ℤ) : ℚ) := by
            exact_mod_cast Int.ceil_le.mpr haA.le
          have hceil2 : (⌈A⌉ : ℚ) < A + 1 := Int.ceil_lt_add_one A
          have hfl : (⌊x⌋ : ℚ) + 1 ≤ (⌈A⌉ : ℚ) := by
            have h5 : (⌊x⌋ : ℚ) < (⌈A⌉ : ℚ) := lt_of_lt_of_le hcon (Int.le_ceil A)
            have h6 : ⌊x⌋ < ⌈A⌉ := by exact_mod_cast h5
            have h7 : ⌊x⌋ + 1 ≤ ⌈A⌉ := by omega
            exact_mod_cast h7
          have h2 : x ≤ (⌊x⌋ : ℚ) + 1/2 := by linarith
          have hx10 : 10 * x = 7 * a + 3 * A := by rw [hxdef]; ring
          linarith
        · rw [hc]
          have h5 := Int.lt_floor_add_one x
          push_cast
          linarith
      rw [havg]
      linarith
    · have h1 : rhe x ≤ a := rhe_le_int hax
      have h1' : (rhe x : ℚ) ≤ ((a : ℤ) : ℚ) := by exact_mod_cast h1
      linarith

/-- C8 (amended to the counterexample): a cell's smoothed score equals the
0.7/0.3 blend of its own pre-smoothing score with the neighbor average (or
city average when it has no aggregated 1-ring neighbor) rounded to 2
decimals, identically in the collision and the crime aggregator; the
rounded value still always lies within the convex hull of
[own, neighbor_avg_or_city_avg] because scores are 2-decimal values. -/
theorem c8_smoothing_hull (grid : List GridCell) (ring : String → List String)
    (row : GridCell) (hown : ∃ k : ℤ, row.risk_score = (k : ℚ) / 100) :
    (get_smoothed_risk grid ring (3/10) row =
      round2 (row.risk_score * (7/10) + smoothing_reference grid ring row * (3/10)) ∧
     crime_get_smoothed grid ring row = get_smoothed_risk grid ring (3/10) row) ∧
    (min row.risk_score (smoothing_reference grid ring row) ≤
      get_smoothed_risk grid ring (3/10) row ∧
     get_smoothed_risk grid ring (3/10) row ≤
      max row.risk_score (smoothing_reference grid ring row)) ∧
    (∀ fp : ℚ, apply_spatial_smoothing grid ring fp =
      grid.map (fun r => (r, get_smoothed_risk grid ring fp r))) := by
  have heq : get_smoothed_risk grid ring (3/10) row =
      round2 (row.risk_score * (7/10) + smoothing_reference grid ring row * (3/10)) := by
    unfold get_smoothed_risk smoothing_reference
    by_cases hlen : (neighbor_rows grid ring row.h3_cell).length > 0
    · simp only [if_pos hlen]
    · simp only [if_neg hlen]
  refine ⟨⟨heq, rfl⟩, ?_, fun fp => rfl⟩
  rw [heq]
  exact round2_blend_bounds row.risk_score (smoothing_reference grid ring row) hown

theorem c8_smoothing_hull_witness :
    (∃ k : ℤ, (⟨"x", 50⟩ : GridCell).risk_score = (k : ℚ) / 100) ∧
    (min (⟨"x", 50⟩ : GridCell).risk_score
        (smoothing_reference [⟨"x", 50⟩] (fun _ => []) ⟨"x", 50⟩) ≤
      get_smoothed_risk [⟨"x", 50⟩] (fun _ => []) (3/10) ⟨"x", 50⟩ ∧
     get_smoothed_risk [⟨"x", 50⟩] (fun _ => []) (3/10) ⟨"x", 50⟩ ≤
      max (⟨"x", 50⟩ : GridCell).risk_score
        (smoothing_reference [⟨"x", 50⟩] (fun _ => []) ⟨"x", 50⟩)) :=
  ⟨⟨5000, by norm_num⟩,
   (c8_smoothing_hull [⟨"x", 50⟩] (fun _ => []) ⟨"x", 50⟩ ⟨5000, by norm_num⟩).2.1⟩

/-- Pre-smoothing grid of the C8 counterexample: scores 0.01 and 0.02. -/
def c8_grid : List GridCell := [⟨"x", 1/100⟩, ⟨"y", 2/100⟩]

/-- 1-ring oracle for the C8 counterexample: x and y are neighbors. -/
def c8_ring : String → List String := fun c => if c = "x" then ["y"] else ["x"]

/-- C8 counterexample: with own = 0.01 and neighbor average 0.02 the blend
0.7*0.01 + 0.3*0.02 = 0.013, but the smoothed score is the rounded 0.01,
so the smoothed score does not equal own*0.7 + neighbor_avg*0.3. -/
theorem c8_counterexample :
    get_smoothed_risk c8_grid c8_ring (3/10) ⟨"x", 1/100⟩ = 1/100 ∧
    (⟨"x", 1/100⟩ : GridCell).risk_score * (7/10) +
      (((neighbor_rows c8_grid c8_ring "x").map (·.risk_score)).sum /
        ((neighbor_rows c8_grid c8_ring "x").length : ℚ)) * (3/10) = 13/1000 ∧
    (1/100 : ℚ) ≠ 13/1000 := by
  have hnd : neighbor_rows c8_grid c8_ring "x" = [⟨"y", 2/100⟩] := by
    simp [neighbor_rows, c8_grid, c8_ring]
  have hr2 : round2 ((13 : ℚ)/1000) = 1/100 := by
    unfold round2
    have hm : (13 : ℚ)/1000 * 100 = 13/10 := by norm_num
    rw [hm]
    have hf : ⌊(13 : ℚ)/10⌋ = 1 := by norm_num [Int.floor_eq_iff]
    unfold rhe
    rw [hf]
    norm_num
  refine ⟨?_, ?_, by norm_num⟩
  · unfold get_smoothed_risk
    rw [show (⟨"x", 1/100⟩ : GridCell).h3_cell = "x" from rfl, hnd]
    norm_num
    exact hr2
  · rw [hnd]
    norm_num

end RiskPipeline

namespace RiskPipeline

/-- The risk the stats loop attributes to one coordinate: blended risk of
its cell when the cell is in the loaded table, else nothing. -/
def coord_node_risk (E : RoutingEngine) (tk mode : String) (c : ℚ × ℚ) : ℚ :=
  match E.risk_data.lookup (E.latlng_to_cell c) with
  | some ci => get_blended_risk E.has_crime_data ci tk mode
  | none => 0

/-- The cumulative risk C5 describes, following the spec's words: blended
risk summed over every traversed node of the route. -/
def spec_route_node_risk_sum (E : RoutingEngine) (coords : List (ℚ × ℚ))
    (hour : ℤ) (w : Bool) (mode : String) : ℚ :=
  (coords.map (coord_node_risk E (get_time_key hour w) mode)).sum

theorem route_stats_risk_eq (E : RoutingEngine) (tk mode : String) :
    ∀ coords : List (ℚ × ℚ),
    (∀ pr ∈ coords.zip coords.tail,
      (E.edges (E.nearest_nodes pr.1) (E.nearest_nodes pr.2)).isSome) →
    (route_stats_aux E tk mode coords).total_risk =
      ((coords.dropLast).map (coord_node_risk E tk mode)).sum
  | [] => fun _ => rfl
  | [_] => fun _ => rfl
  | c1 :: c2 :: rest => fun h => by
    have h12 : (E.edges (E.nearest_nodes c1) (E.nearest_nodes c2)).isSome :=
      h (c1, c2) (by simp)
    obtain ⟨d, hd⟩ := Option.isSome_iff_exists.mp h12
    have ih := route_stats_risk_eq E tk mode (c2 :: rest)
      (fun pr hpr => h pr (List.mem_cons_of_mem _ hpr))
    show (route_stats_aux E tk mode (c1 :: c2 :: rest)).total_risk = _
    rw [route_stats_aux, hd]
    cases hcell : E.risk_data.lookup (E.latlng_to_cell c1) with
    | none =>
      simp only [hcell]
      show (route_stats_aux E tk mode (c2 :: rest)).total_risk = _
      rw [ih]
      show _ = (coord_node_risk E tk mode c1 :: _).sum
      rw [List.sum_cons]
      unfold coord_node_risk
      rw [hcell]
      ring
    | some ci =>
      simp only [hcell]
      show (route_stats_aux E tk mode (c2 :: rest)).total_risk +
        get_blended_risk E.has_crime_data ci tk mode = _
      rw [ih]
      show _ = (coord_node_risk E tk mode c1 :: _).sum
      rw [List.sum_cons]
      unfold coord_node_risk
      rw [hcell]
      ring

/-- C5 (amended to the counterexample): the reported cumulative risk of a
route is the sum of the blended risk at every traversed node except the
final one (the loop walks consecutive pairs and reads the pair's first
coordinate), at the request's time bucket and travel mode; get_comparison
reports exactly these stats for its two routes. -/
theorem c5_route_risk_sum :
    (∀ (E : RoutingEngine) (coords : List (ℚ × ℚ)) (hour : ℤ) (w : Bool) (mode : String),
      (∀ pr ∈ coords.zip coords.tail,
        (E.edges (E.nearest_nodes pr.1) (E.nearest_nodes pr.2)).isSome) →
      (calculate_route_stats E coords hour w mode).total_risk =
        ((coords.dropLast).map (coord_node_risk E (get_time_key hour w) mode)).sum) ∧
    (∀ (E : RoutingEngine) (s e : ℚ × ℚ) (beta : ℚ) (hour : ℤ) (w : Bool)
       (mode : String) (out : Comparison),
      get_comparison E s e beta hour w mode = Except.ok out →
      out.fastest_stats = calculate_route_stats E out.fastest_route hour w mode ∧
      out.safest_stats = calculate_route_stats E out.safest_route hour w mode) := by
  constructor
  · intro E coords hour w mode h
    exact route_stats_risk_eq E (get_time_key hour w) mode coords h
  · intro E s e beta hour w mode out hok
    unfold get_comparison at hok
    split at hok
    · simp at hok
    · split at hok
      · simp at hok
      · split at hok
        · injection hok with h
          rw [← h]
          exact ⟨rfl, rfl⟩
        · simp at hok

/-- A cell whose walking blended risk is 10 at every time key. -/
def c5_cell : CellInfo :=
  { base_risk := 10, smoothed_risk := 0, pedestrian_risk := 0, cyclist_risk := 0,
    crime_risk := 10, smoothed_crime_risk := 0, crash_count := 0, crime_count := 0,
    total_severity := 0, time_modifiers := [], crime_time_modifiers := [] }

/-- Engine with nodes 0,1 at (0,0) and (1,1), one edge 0 → 1, and risk
records for both nodes' cells. -/
def c5_engine : RoutingEngine :=
  { edges := fun u v => if u = 0 ∧ v = 1 then some ⟨some 5⟩ else none,
    node_coord := fun n => if n = 0 then ((0 : ℚ), (0 : ℚ)) else (1, 1),
    nearest_nodes := fun c => if c.1 = 0 then 0 else 1,
    latlng_to_cell := fun c => if c.1 = 0 then "cellA" else "cellB",
    risk_data := [("cellA", c5_cell), ("cellB", c5_cell)],
    has_crime_data := true,
    bounds := ⟨0, 1, 0, 1⟩,
    shortest_path := fun _ _ _ => some [0, 1] }

/-- C5 counterexample: on the two-node route both cells carry blended risk
10, so a per-node sum over every traversed node would be 20, but the
reported total risk is 10 — the final node's risk is never added. -/
theorem c5_counterexample :
    (calculate_route_stats c5_engine [(0, 0), (1, 1)] 12 false "walking").total_risk = 10 ∧
    spec_route_node_risk_sum c5_engine [(0, 0), (1, 1)] 12 false "walking" = 20 ∧
    (10 : ℚ) ≠ 20 := by
  have hb : get_blended_risk true c5_cell (get_time_key 12 false) "walking" = 10 := by
    have hw : modeWeights "walking" = (3/10, 7/10) := rfl
    norm_num [get_blended_risk, c5_cell, hw]
  have hlookA : c5_engine.risk_data.lookup "cellA" = some c5_cell := rfl
  have hlookB : c5_engine.risk_data.lookup "cellB" = some c5_cell := rfl
  refine ⟨?_, ?_, by norm_num⟩
  · unfold calculate_route_stats
    rw [show route_stats_aux c5_engine (get_time_key 12 false) "walking"
          [((0 : ℚ), (0 : ℚ)), (1, 1)] =
        ⟨(route_stats_aux c5_engine (get_time_key 12 false) "walking" [(1, 1)]).total_time + 5,
         (route_stats_aux c5_engine (get_time_key 12 false) "walking" [(1, 1)]).total_risk +
           get_blended_risk true c5_cell (get_time_key 12 false) "walking"⟩ from rfl]
    rw [hb]
    norm_num
    rfl
  · unfold spec_route_node_risk_sum
    have h1 : coord_node_risk c5_engine (get_time_key 12 false) "walking"
        ((0 : ℚ), (0 : ℚ)) = 10 := by
      unfold coord_node_risk
      rw [show c5_engine.latlng_to_cell ((0 : ℚ), (0 : ℚ)) = "cellA" from rfl, hlookA]
      exact hb
    have h2 : coord_node_risk c5_engine (get_time_key 12 false) "walking"
        ((1 : ℚ), (1 : ℚ)) = 10 := by
      unfold coord_node_risk
      rw [show c5_engine.latlng_to_cell ((1 : ℚ), (1 : ℚ)) = "cellB" from rfl, hlookB]
      exact hb
    rw [List.map_cons, List.map_cons, List.map_nil, List.sum_cons, List.sum_cons,
        List.sum_nil, h1, h2]
    norm_num

theorem c5_route_risk_sum_witness :
    (∀ pr ∈ ([((0 : ℚ), (0 : ℚ)), ((1 : ℚ), (1 : ℚ))].zip
        [((0 : ℚ), (0 : ℚ)), ((1 : ℚ), (1 : ℚ))].tail),
      (c5_engine.edges (c5_engine.nearest_nodes pr.1)
        (c5_engine.nearest_nodes pr.2)).isSome) ∧
    (calculate_route_stats c5_engine [(0, 0), (1, 1)] 12 false "walking").total_risk =
      (([((0 : ℚ), (0 : ℚ)), ((1 : ℚ), (1 : ℚ))].dropLast).map
        (coord_node_risk c5_engine (get_time_key 12 false) "walking")).sum := by
  have hpairs : ∀ pr ∈ ([((0 : ℚ), (0 : ℚ)), ((1 : ℚ), (1 : ℚ))].zip
      [((0 : ℚ), (0 : ℚ)), ((1 : ℚ), (1 : ℚ))].tail),
      (c5_engine.edges (c5_engine.nearest_nodes pr.1)
        (c5_engine.nearest_nodes pr.2)).isSome := by
    intro pr hpr
    fin_cases hpr
    rfl
  exact ⟨hpairs, c5_route_risk_sum.1 c5_engine [(0, 0), (1, 1)] 12 false "walking" hpairs⟩

end RiskPipeline

namespace RiskPipeline

theorem route_stats_time_eq_cost (E : RoutingEngine) (tk mode : String) :
    ∀ p : List ℕ,
    (∀ n ∈ p, E.nearest_nodes (E.node_coord n) = n) →
    (∀ u v d, E.edges u v = some d → d.travel_time ≠ none) →
    List.Chain' (fun u v => (E.edges u v).isSome) p →
    (route_stats_aux E tk mode (p.map E.node_coord)).total_time =
      path_cost E 0 tk mode p
  | [] => fun _ _ _ => rfl
  | [_] => fun _ _ _ => rfl
  | u :: v :: rest => fun hr htt hch => by
    have huv : (E.edges u v).isSome := (List.chain'_cons.mp hch).1
    obtain ⟨d, hd⟩ := Option.isSome_iff_exists.mp huv
    obtain ⟨q, hq⟩ : ∃ q, d.travel_time = some q :=
      Option.ne_none_iff_exists'.mp (htt u v d hd)
    have ih := route_stats_time_eq_cost E tk mode (v :: rest)
      (fun n hn => hr n (List.mem_cons_of_mem _ hn)) htt (List.chain'_cons.mp hch).2
    show (route_stats_aux E tk mode
      (E.node_coord u :: E.node_coord v :: rest.map E.node_coord)).total_time = _
    rw [route_stats_aux, hr u (List.mem_cons_self u _),
      hr v (List.mem_cons_of_mem _ (List.mem_cons_self v _)), hd]
    cases hcell : E.risk_data.lookup (E.latlng_to_cell (E.node_coord u)) with
    | none =>
      simp only [hcell]
      show (route_stats_aux E tk mode
          ((v :: rest).map E.node_coord)).total_time + d.travel_time.getD 0 = _
      rw [ih, path_cost]
      simp only [hd]
      rw [risk_cost_func]
      simp only [hcell, hq, Option.getD_some]
      ring
    | some ci =>
      simp only [hcell]
      show (route_stats_aux E tk mode
          ((v :: rest).map E.node_coord)).total_time + d.travel_time.getD 0 = _
      rw [ih, path_cost]
      simp only [hd]
      rw [risk_cost_func]
      simp only [hcell, hq, Option.getD_some]
      ring

/-- C6: when the beta = 0 search returns a minimum-total-cost valid path and
the risk-aware search returns any valid path between the same snapped
endpoints, the reported total travel time of the beta = 0 route is at most
that of the risk-aware route (the beta = 0 cost of a path is exactly its
total travel time). The hypotheses are the contract of the external
`nx.shortest_path` / `ox.nearest_nodes` collaborators: the returned node
sequences follow existing edges, every edge carries a travel time, and
snapping a node's own coordinates yields that node. -/
theorem c6_fastest_no_slower (E : RoutingEngine) (s t : ℕ) (p0 p1 : List ℕ)
    (hour : ℤ) (w : Bool) (mode : String)
    (hr : ∀ n, n ∈ p0 ∨ n ∈ p1 → E.nearest_nodes (E.node_coord n) = n)
    (htt : ∀ u v d, E.edges u v = some d → d.travel_time ≠ none)
    (hp0 : ValidPath E s t p0)
    (hopt : ∀ q, ValidPath E s t q →
      path_cost E 0 (get_time_key hour w) mode p0 ≤
      path_cost E 0 (get_time_key hour w) mode q)
    (hp1 : ValidPath E s t p1) :
    (calculate_route_stats E (p0.map E.node_coord) hour w mode).total_time ≤
    (calculate_route_stats E (p1.map E.node_coord) hour w mode).total_time := by
  have h0 := route_stats_time_eq_cost E (get_time_key hour w) mode p0
    (fun n hn => hr n (Or.inl hn)) htt hp0.2.2
  have h1 := route_stats_time_eq_cost E (get_time_key hour w) mode p1
    (fun n hn => hr n (Or.inr hn)) htt hp1.2.2
  unfold calculate_route_stats
  rw [h0, h1]
  exact hopt p1 hp1

/-- Two-node engine with a single zero-travel-time edge, for the C6 witness. -/
def c6_engine : RoutingEngine :=
  { edges := fun u v => if u = 0 ∧ v = 1 then some ⟨some 0⟩ else none,
    node_coord := fun n => if n = 0 then ((0 : ℚ), (0 : ℚ)) else (1, 1),
    nearest_nodes := fun c => if c.1 = 0 then 0 else 1,
    latlng_to_cell := fun c => if c.1 = 0 then "cellA" else "cellB",
    risk_data := [],
    has_crime_data := false,
    bounds := ⟨0, 1, 0, 1⟩,
    shortest_path := fun _ _ _ => some [0, 1] }

theorem c6_fastest_no_slower_witness :
    ValidPath c6_engine 0 1 [0, 1] ∧
    (calculate_route_stats c6_engine ([0, 1].map c6_engine.node_coord)
        12 false "walking").total_time ≤
    (calculate_route_stats c6_engine ([0, 1].map c6_engine.node_coord)
        12 false "walking").total_time := by
  have hzero : ∀ r : List ℕ,
      path_cost c6_engine 0 (get_time_key 12 false) "walking" r = 0 := by
    intro r
    induction r with
    | nil => rfl
    | cons u rest ih =>
      cases rest with
      | nil => rfl
      | cons v rest' =>
        rw [path_cost, ih]
        have hterm : (match c6_engine.edges u v with
            | some d => risk_cost_func c6_engine 0 (get_time_key 12 false) "walking" u v d
            | none => 0) = 0 := by
          cases huv : c6_engine.edges u v with
          | none => rfl
          | some d =>
            have hd : d = ⟨some 0⟩ := by
              by_cases hc : u = 0 ∧ v = 1
              · have h0 : c6_engine.edges u v = some (⟨some 0⟩ : EdgeData) := by
                  show (if u = 0 ∧ v = 1 then some (⟨some 0⟩ : EdgeData) else none) =
                    some (⟨some 0⟩ : EdgeData)
                  rw [if_pos hc]
                rw [h0] at huv
                injection huv with h
                exact h.symm
              · have h0 : c6_engine.edges u v = none := by
                  show (if u = 0 ∧ v = 1 then some (⟨some 0⟩ : EdgeData) else none) = none
                  rw [if_neg hc]
                rw [h0] at huv
                cases huv
            rw [hd]
            simp [risk_cost_func]
        rw [hterm]
        norm_num
  have htt : ∀ u v d, c6_engine.edges u v = some d → d.travel_time ≠ none := by
    intro u v d h
    by_cases hc : u = 0 ∧ v = 1
    · have h0 : c6_engine.edges u v = some (⟨some 0⟩ : EdgeData) := by
        show (if u = 0 ∧ v = 1 then some (⟨some 0⟩ : EdgeData) else none) =
          some (⟨some 0⟩ : EdgeData)
        rw [if_pos hc]
      rw [h0] at h
      injection h with h'
      rw [← h']
      simp
    · have h0 : c6_engine.edges u v = none := by
        show (if u = 0 ∧ v = 1 then some (⟨some 0⟩ : EdgeData) else none) = none
        rw [if_neg hc]
      rw [h0] at h
      cases h
  have hvp : ValidPath c6_engine 0 1 [0, 1] := by
    refine ⟨rfl, rfl, ?_⟩
    rw [List.chain'_cons]
    exact ⟨rfl, List.chain'_singleton _⟩
  refine ⟨hvp, ?_⟩
  exact c6_fastest_no_slower c6_engine 0 1 [0, 1] [0, 1] 12 false "walking"
    (fun n hn => by
      rcases hn with h | h <;> fin_cases h <;> rfl)
    htt hvp
    (fun r hq => by rw [hzero [0, 1], hzero r])
    hvp

end RiskPipeline
